import Mathlib

/-!
Verification development for the `clog` pluggable asynchronous logging core:
a shallow embedding of `logger.go` (factory registry, receiver lifecycle,
dispatcher `NewLogger`) and of the console adapter (`console.go`), with the
spec's claims settled as theorems.

Side effects are made explicit: the dispatcher's actions on adapters are
recorded as an `Event` trace, channel contents are queues (`List`), and a Go
panic is modelled as `none` / a dedicated `panicked` constructor.
-/

namespace Clog

/-- `MODE` identifies a logger adapter kind.  In `logger.go` it is a
string-based type (`Register` concatenates a mode into a panic message). -/
abbrev MODE := String

/-- Modelled from the spec: `LEVEL` (defined in a repository file not under
`src/`) is the ordered severity enumeration Trace < Info < Warn < Error <
Fatal.  The console adapter indexes the five-element `colors` slice directly
by a message's `Level`, so `LEVEL` is an integer type with Trace = 0 through
Fatal = 4. -/
abbrev LEVEL := Int

def TRACE : LEVEL := 0

def INFO : LEVEL := 1

def WARN : LEVEL := 2

def ERROR : LEVEL := 3

def FATAL : LEVEL := 4

/-- Modelled from the spec: `isValidLevel` (missing from `src/`) checks that
a severity value is in range, i.e. one of the five levels Trace..Fatal. -/
def isValidLevel (l : LEVEL) : Bool := TRACE ≤ l && l ≤ FATAL

/-- Modelled from the spec: a `Message` (defined in a repository file not
under `src/`) is an immutable log event; the console adapter reads exactly
the fields `Level` (severity) and `Body` (rendered text). -/
structure Message where
  Level : LEVEL
  Body : String
  deriving DecidableEq, Repr

/-- The ANSI SGR wrapper produced by `color.New(attr).SprintFunc()` from
`fatih/color`: the text surrounded by the escape sequence for the attribute
and the reset sequence. -/
def sprintColor (code : Nat) (s : String) : String :=
  "\x1b[" ++ toString code ++ "m" ++ s ++ "\x1b[0m"

/-- The package-level `colors` slice of `console.go`: five color functions,
index 0 = Trace (blue, SGR 34), 1 = Info (green, 32), 2 = Warn (yellow, 33),
3 = Error (red, 31), 4 = Fatal (high-intensity red, 91). -/
def colors : List (String → String) :=
  [sprintColor 34, sprintColor 32, sprintColor 33, sprintColor 31, sprintColor 91]

/-- `const CONSOLE MODE = "console"` from `console.go`. -/
def CONSOLE : MODE := "console"

/-- The `ConsoleConfig` struct of `console.go`: minimum level and inbound
channel buffer size (`int64` in Go, modelled as `Int`). -/
structure ConsoleConfig where
  Level : LEVEL
  BufferSize : Int
  deriving DecidableEq, Repr

/-- The dynamic value passed to `Init(v interface\x7b\x7d)`: either an actual
`ConsoleConfig`, or any other value (identified by a description tag), for
which the type assertion `v.(ConsoleConfig)` fails. -/
inductive CfgVal where
  | console (cfg : ConsoleConfig)
  | other (tag : String)
  deriving DecidableEq, Repr

/-- Modelled from the spec: the typed configuration errors (their type
definitions are in a repository file not under `src/`).  The `src/` call
sites fix their shape: `ErrConfigObject\x7b"ConsoleConfig", v\x7d` carries the
expected type name and the offending value, while `ErrInvalidLevel\x7b\x7d` is
constructed with no arguments, hence carries no payload. -/
inductive CError where
  | ErrConfigObject (expect : String) (got : CfgVal)
  | ErrInvalidLevel
  deriving DecidableEq, Repr

/-- The `console` struct: the embedded `log.Logger` is modelled by the
timestamp text it prefixes to each line (`log.Ldate|log.Ltime`), the ordered
list of lines it has handed to its output writer, and the error (if any)
that the underlying writer returns on a write attempt (`log.Print` discards
that error).  `msgChan` is modelled by its capacity and queued contents,
and the shared error channel by whether it was stored (`ExchangeChans`) and
the list of values this adapter has sent on it. -/
structure Console where
  ts : String
  printed : List String
  writerErr : Option String
  level : LEVEL
  msgCap : Int
  msgQueue : List Message
  errorChanSet : Bool
  errorChanSent : List String
  deriving DecidableEq, Repr

/-- `newConsole()`: fresh adapter with an embedded line writer (timestamp
flags set; `ts` abstracts the wall-clock date/time text) and an unbuffered
`quitChan`; `msgChan` is still nil (capacity 0, empty) until `Init`. -/
def newConsole (ts : String) : Console :=
  { ts := ts, printed := [], writerErr := none, level := 0, msgCap := 0,
    msgQueue := [], errorChanSet := false, errorChanSent := [] }

/-- `func (c *console) Level() LEVEL`. -/
def Console.Level (c : Console) : LEVEL := c.level

/-- Result of `Init`: a returned error, a runtime panic (Go's
`make(chan T, n)` panics for negative `n`), or the updated adapter. -/
inductive InitResult where
  | err (e : CError)
  | panicked
  | ok (c : Console)
  deriving DecidableEq, Repr

/-- `func (c *console) Init(v interface\x7b\x7d) error`: type-assert the config,
validate the level, then allocate `msgChan` with capacity `cfg.BufferSize`. -/
def Console.Init (c : Console) (v : CfgVal) : InitResult :=
  match v with
  | .other _ => .err (.ErrConfigObject "ConsoleConfig" v)
  | .console cfg =>
    if !isValidLevel cfg.Level then
      .err .ErrInvalidLevel
    else if cfg.BufferSize < 0 then
      .panicked
    else
      .ok { c with level := cfg.Level, msgCap := cfg.BufferSize, msgQueue := [] }

/-- `func (c *console) ExchangeChans(errorChan chan<- error)`: stores the
shared error channel on the adapter and returns its message/quit channel
pair (the channels are fields of the model, so only the stored-channel
effect is recorded). -/
def Console.ExchangeChans (c : Console) : Console :=
  { c with errorChanSet := true }

/-- `func (c *console) write(msg *Message)`: renders one message —
`c.Logger.Print(colors[msg.Level](msg.Body))`.  The slice index panics
(`none`) unless `0 ≤ msg.Level < len(colors)`; otherwise exactly one
timestamp-prefixed line is handed to the writer, and any error from the
underlying writer is discarded by `log.Print` (in particular nothing is
ever sent on the shared error channel). -/
def Console.write (c : Console) (m : Message) : Option Console :=
  if 0 ≤ m.Level ∧ m.Level.toNat < colors.length then
    some { c with printed :=
      c.printed ++ [c.ts ++ (colors.getD m.Level.toNat id) m.Body] }
  else
    none

/-- The rendered line `write` produces for a message (used in statements;
`write` itself guards the color index). -/
def renderLine (c : Console) (m : Message) : String :=
  c.ts ++ (colors.getD m.Level.toNat id) m.Body

/-- One outcome of the `select` in the consume loop of `Start`: either a
message arrives on `msgChan` or the shutdown signal arrives on `quitChan`. -/
inductive LoopInput where
  | msg (m : Message)
  | quit
  deriving DecidableEq, Repr

/-- Result of running the consume loop against a finite trace of select
outcomes: the loop panicked in `write`, is still blocked waiting (trace
exhausted without a quit signal), or returned, leaving the inputs after the
quit signal unread. -/
inductive StartResult where
  | panicked
  | blocked (c : Console)
  | returned (c : Console) (unread : List LoopInput)
  deriving DecidableEq, Repr

/-- `func (c *console) Start()`: loop — receive a message and `write` it, or
receive the quit signal and return. -/
def Console.startLoop (c : Console) : List LoopInput → StartResult
  | [] => .blocked c
  | .quit :: rest => .returned c rest
  | .msg m :: rest =>
    match c.write m with
    | none => .panicked
    | some c' => c'.startLoop rest

/-- The loop body of `Flush`, recursing on a snapshot of the queue: while
`len(c.msgChan) != 0`, dequeue one message and `write` it. -/
def Console.flushAux : List Message → Console → Option Console
  | [], c => some c
  | m :: rest, c =>
    match Console.write { c with msgQueue := rest } m with
    | none => none
    | some c' => Console.flushAux rest c'

/-- `func (c *console) Flush()`: drain the messages currently queued in
`msgChan`, rendering each, and return once the channel is empty. -/
def Console.Flush (c : Console) : Option Console :=
  Console.flushAux c.msgQueue c

/-- Go buffered-channel admission (no waiting receiver): a send completes
without blocking iff the buffer has free space, `len < cap`.  With capacity
0 a send always blocks until a consumer takes the value. -/
def chanSendAdmits (cap : Int) (queued : Nat) : Bool :=
  (queued : Int) < cap

/-- A `Factory` (`func() Logger`) as a registry value; its identity is all
the registry operations observe, so it is modelled by an opaque identifier.
A nil Go function value is `Option.none` at the `Register` call site. -/
abbrev Factory := Nat

/-- `func Register(mode MODE, f Factory)` over an explicit registry state
(the package-level `factories` map, modelled as an association list).
`none` models the panic: registering a nil factory or a duplicated mode
aborts the process; otherwise the factory is stored for the mode. -/
def Register (factories : List (MODE × Factory)) (mode : MODE) (f : Option Factory) :
    Option (List (MODE × Factory)) :=
  match f with
  | none => none
  | some fn =>
    if (factories.lookup mode).isSome then
      none
    else
      some ((mode, fn) :: factories)

/-- What `NewLogger` observes of `factory()` followed by `Init(cfg)` and
`ExchangeChans(errorChan)` for one call: the fresh adapter instance (an
opaque id `lid`), the error `Init` returned for the given config (if any),
and the message/quit channel ids `ExchangeChans` hands back. -/
structure FreshLogger where
  lid : Nat
  initErr : Option String
  msgChan : Nat
  quitChan : Nat
  deriving DecidableEq, Repr

/-- The `receiver` struct of `logger.go`: one active adapter instance with
its message channel and quit channel. -/
structure Receiver where
  logger : Nat
  mode : MODE
  msgChan : Nat
  quitChan : Nat
  deriving DecidableEq, Repr

/-- The side effects `NewLogger` performs on adapter instances and their
channels, in program order. -/
inductive Event where
  | initCalled (lid : Nat)
  | quitSignaled (ch : Nat)
  | flushCalled (lid : Nat)
  | destroyCalled (lid : Nat)
  | updated (lid : Nat)
  | appended (lid : Nat)
  | startCalled (lid : Nat)
  deriving DecidableEq, Repr

/-- `func (r *receiver) close()`: send on the quit channel, then `Flush()`,
then `Destroy()` on the receiver's adapter — recorded as its event trace. -/
def Receiver.close (r : Receiver) : List Event :=
  [.quitSignaled r.quitChan, .flushCalled r.logger, .destroyCalled r.logger]

/-- The `for i := range receivers` loop of `NewLogger`: find the first
receiver with the given mode; if found, `close()` it, overwrite its adapter
and channels in place with the new ones, and stop (`break`).  Returns
`none` when no receiver has the mode (`hasFound` stays false). -/
def replaceReceiver (mode : MODE) (l : FreshLogger) :
    List Receiver → Option (List Receiver × List Event)
  | [] => none
  | r :: rs =>
    if r.mode = mode then
      some ({ logger := l.lid, mode := r.mode, msgChan := l.msgChan,
              quitChan := l.quitChan } :: rs,
            r.close ++ [.updated l.lid])
    else
      match replaceReceiver mode l rs with
      | none => none
      | some (rs2, evs) => some (r :: rs2, evs)

/-- `func NewLogger(mode MODE, cfg interface\x7b\x7d) error` over explicit state:
`factoryResult` is `none` when `factories[mode]` is absent, else the
observation of the factory call with `cfg`.  Returns the new receivers
list, the event trace in program order, and the returned error (if any). -/
def NewLogger (factoryResult : Option FreshLogger) (receivers : List Receiver)
    (mode : MODE) : List Receiver × List Event × Option String :=
  match factoryResult with
  | none => (receivers, [], some ("unknown mode " ++ mode))
  | some logger =>
    match logger.initErr with
    | some e =>
      (receivers, [.initCalled logger.lid], some ("fail to initialize: " ++ e))
    | none =>
      match replaceReceiver mode logger receivers with
      | some (rs2, evs) =>
        (rs2, .initCalled logger.lid :: (evs ++ [.startCalled logger.lid]), none)
      | none =>
        (receivers ++ [{ logger := logger.lid, mode := mode,
                         msgChan := logger.msgChan, quitChan := logger.quitChan }],
         [.initCalled logger.lid, .appended logger.lid, .startCalled logger.lid],
         none)

/-- A sequence of `NewLogger` calls starting from the initial empty
package-level `receivers` slice; each call leaves the state unchanged when
it returns an error. -/
def runNewLoggers (calls : List (Option FreshLogger × MODE)) : List Receiver :=
  calls.foldl (fun rs c => (NewLogger c.1 rs c.2).1) []

/-! ## Helper lemmas about the console adapter -/

theorem colors_length : colors.length = 5 := rfl

theorem int_toNat_lt_five (l : Int) (h1 : 0 ≤ l) (h2 : l ≤ 4) : l.toNat < 5 := by
  omega

theorem int_le_four_of_toNat_lt_five (l : Int) (h : l.toNat < 5) : l ≤ 4 := by
  omega

theorem isValidLevel_iff (l : LEVEL) : isValidLevel l = true ↔ 0 ≤ l ∧ l ≤ 4 := by
  simp [isValidLevel, TRACE, FATAL, Bool.and_eq_true, decide_eq_true_eq]

theorem Console.write_eq_of_valid (c : Console) (m : Message)
    (h : isValidLevel m.Level = true) :
    c.write m = some { c with printed := c.printed ++ [renderLine c m] } := by
  obtain ⟨hl1, hl2⟩ := (isValidLevel_iff m.Level).1 h
  have hb : 0 ≤ m.Level ∧ m.Level.toNat < colors.length := by
    rw [colors_length]
    exact ⟨hl1, int_toNat_lt_five m.Level hl1 hl2⟩
  rw [Console.write, if_pos hb]
  rfl

theorem Console.write_eq_none_iff (c : Console) (m : Message) :
    c.write m = none ↔ ¬(0 ≤ m.Level ∧ m.Level ≤ 4) := by
  constructor
  · intro hw hc
    obtain ⟨hc1, hc2⟩ := hc
    have hb : 0 ≤ m.Level ∧ m.Level.toNat < colors.length := by
      rw [colors_length]
      exact ⟨hc1, int_toNat_lt_five m.Level hc1 hc2⟩
    rw [Console.write, if_pos hb] at hw
    exact Option.noConfusion hw
  · intro hn
    have hb : ¬(0 ≤ m.Level ∧ m.Level.toNat < colors.length) := by
      rw [colors_length]
      intro hc
      obtain ⟨hc1, hc2⟩ := hc
      exact hn ⟨hc1, int_le_four_of_toNat_lt_five m.Level hc2⟩
    rw [Console.write, if_neg hb]

theorem colors_nodup : colors.Nodup := by
  have hmap : (colors.map (fun f => f "x")).Nodup := by decide
  exact List.Nodup.of_map _ hmap

theorem Console.Init_other (c : Console) (tag : String) :
    c.Init (.other tag) = .err (.ErrConfigObject "ConsoleConfig" (.other tag)) := rfl

theorem Console.Init_badLevel (c : Console) (cfg : ConsoleConfig)
    (h : isValidLevel cfg.Level = false) :
    c.Init (.console cfg) = .err .ErrInvalidLevel := by
  rw [Console.Init]
  simp [h]

theorem Console.Init_ok (c : Console) (cfg : ConsoleConfig)
    (h : isValidLevel cfg.Level = true) (hb : 0 ≤ cfg.BufferSize) :
    c.Init (.console cfg) =
      .ok { c with level := cfg.Level, msgCap := cfg.BufferSize, msgQueue := [] } := by
  rw [Console.Init]
  simp only [h, Bool.not_true, Bool.false_eq_true, if_false]
  rw [if_neg (by omega)]

/-! ## Claims about the console adapter -/

/-- C10: `console.write` indexes the five-element `colors` slice directly by
`msg.Level` with no bounds check, so rendering is well-defined exactly for
levels 0 through 4; for any message with a level outside that range the
index expression panics (modelled as `none`). -/
theorem write_level_bounds (c : Console) (m : Message) :
    c.write m = none ↔ ¬(0 ≤ m.Level ∧ m.Level ≤ 4) :=
  Console.write_eq_none_iff c m

/-- C9: for a message whose level is one of the five severities, `write`
hands exactly one line to the terminal writer, prefixed by the embedded
logger's timestamp text, whose body is the message body wrapped by the
color function at index `msg.Level` of `colors`; `colors` has exactly five
pairwise-distinct color functions, index 0 (Trace, blue) through index 4
(Fatal, high-intensity red). -/
theorem write_one_timestamped_colored_line (c : Console) (m : Message)
    (h : isValidLevel m.Level = true) :
    c.write m = some { c with printed :=
      c.printed ++ [c.ts ++ (colors.getD m.Level.toNat id) m.Body] } ∧
    colors.length = 5 ∧ colors.Nodup :=
  ⟨Console.write_eq_of_valid c m h, colors_length, colors_nodup⟩

/-- Closed instance for C9: rendering an Info message appends one line. -/
theorem write_one_timestamped_colored_line_witness :
    ((newConsole "2017/02/14 12:00:00 ").write ⟨INFO, "hello"⟩).isSome = true := by
  rw [(write_one_timestamped_colored_line (newConsole "2017/02/14 12:00:00 ")
    ⟨INFO, "hello"⟩ (by decide)).1]
  rfl

/-- A console whose underlying terminal writer fails every write attempt,
after `ExchangeChans` has stored the shared error channel. -/
def failingConsole : Console :=
  { ts := "2017/02/14 12:00:00 ", printed := [], writerErr := some "write error",
    level := 0, msgCap := 10, msgQueue := [], errorChanSet := true,
    errorChanSent := [] }

/-- C5 counterexample: on a console whose underlying writer fails, `write`
completes and sends nothing on the shared error channel retained from
`ExchangeChans` — `log.Print` discards the writer's error, and
`console.write` contains no send on `c.errorChan`, so the claimed
non-blocking error report never happens. -/
theorem write_error_not_reported_counterexample :
    (failingConsole.write ⟨TRACE, "boom"⟩).map Console.errorChanSent = some [] ∧
    failingConsole.writerErr = some "write error" ∧
    failingConsole.errorChanSet = true := by
  decide

/-- C5 amended: a render failure is not returned synchronously to any
caller (`write` returns no error value), but it is also never pushed onto
the shared error channel: whatever the underlying writer's error, `write`
leaves the adapter's error-channel state untouched.  `ExchangeChans` does
retain the shared channel; the console adapter just never uses it. -/
theorem console_write_never_uses_errorChan (c : Console) (m : Message)
    (c' : Console) (h : c.write m = some c') :
    c'.errorChanSent = c.errorChanSent ∧ c'.errorChanSet = c.errorChanSet ∧
    c'.writerErr = c.writerErr ∧ c.ExchangeChans.errorChanSet = true := by
  rw [Console.write] at h
  split at h
  · injection h with h2
    subst h2
    exact ⟨rfl, rfl, rfl, rfl⟩
  · exact Option.noConfusion h

/-- Closed instance for C5's amended claim: a failing write pushes nothing
onto the shared error channel. -/
theorem console_write_never_uses_errorChan_witness :
    ({ failingConsole with printed :=
        [failingConsole.ts ++ sprintColor 34 "boom"] } : Console).errorChanSent =
      failingConsole.errorChanSent :=
  (console_write_never_uses_errorChan failingConsole ⟨TRACE, "boom"⟩
    { failingConsole with printed := [failingConsole.ts ++ sprintColor 34 "boom"] }
    (by decide)).1

/-- C6 counterexample: the invalid-level error carries no information about
the offending value — `Init` returns the identical error for two different
out-of-range levels (the `src/` call site constructs `ErrInvalidLevel` with
no arguments). -/
theorem init_invalid_level_error_valueless :
    (newConsole "t ").Init (.console ⟨99, 10⟩) =
      (newConsole "t ").Init (.console ⟨-1, 10⟩) ∧
    (99 : LEVEL) ≠ (-1 : LEVEL) := by
  decide

/-- C6 amended: `Init` returns a typed error naming the expected
configuration type (`"ConsoleConfig"`) and the offending value when the
argument is not a `ConsoleConfig`; returns the typed invalid-level error
(which carries no payload, in particular not the offending value) when the
severity is out of range; and on success allocates the inbound channel with
capacity exactly `cfg.BufferSize`. -/
theorem init_typed_errors_and_buffer (c : Console) :
    (∀ tag, c.Init (.other tag) = .err (.ErrConfigObject "ConsoleConfig" (.other tag))) ∧
    (∀ cfg : ConsoleConfig, isValidLevel cfg.Level = false →
      c.Init (.console cfg) = .err .ErrInvalidLevel) ∧
    (∀ cfg : ConsoleConfig, isValidLevel cfg.Level = true → 0 ≤ cfg.BufferSize →
      c.Init (.console cfg) =
        .ok { c with level := cfg.Level, msgCap := cfg.BufferSize, msgQueue := [] }) :=
  ⟨fun tag => Console.Init_other c tag,
   fun cfg h => Console.Init_badLevel c cfg h,
   fun cfg h hb => Console.Init_ok c cfg h hb⟩

/-- Closed instance for C6's amended claim: a successful `Init` stores the
level and sizes the channel from `BufferSize`. -/
theorem init_typed_errors_and_buffer_witness :
    (newConsole "t ").Init (.console ⟨WARN, 7⟩) =
      .ok { newConsole "t " with level := WARN, msgCap := 7, msgQueue := [] } :=
  (init_typed_errors_and_buffer (newConsole "t ")).2.2 ⟨WARN, 7⟩ (by decide) (by decide)

/-- C8: `Init` accepts a `ConsoleConfig` with `BufferSize = 0` (it does not
reject it) and allocates the inbound channel with capacity 0 — an
unbuffered channel, on which a send never completes without a consumer
taking the value. -/
theorem init_zero_buffersize_blocks (c : Console) (lvl : LEVEL)
    (h : isValidLevel lvl = true) :
    c.Init (.console ⟨lvl, 0⟩) =
      .ok { c with level := lvl, msgCap := 0, msgQueue := [] } ∧
    (∀ queued : Nat, chanSendAdmits 0 queued = false) := by
  refine ⟨Console.Init_ok c ⟨lvl, 0⟩ h le_rfl, fun queued => ?_⟩
  simp only [chanSendAdmits, decide_eq_false_iff_not, not_lt]
  exact Int.ofNat_nonneg queued

/-- Closed instance for C8: with capacity 0, a send never completes
without a waiting consumer. -/
theorem init_zero_buffersize_blocks_witness :
    chanSendAdmits 0 5 = false :=
  (init_zero_buffersize_blocks (newConsole "t ") TRACE (by decide)).2 5

/-! ## The consume loop and Flush -/

theorem Console.flushAux_spec (q : List Message) :
    ∀ c : Console, c.msgQueue = q → (∀ m ∈ q, isValidLevel m.Level = true) →
      Console.flushAux q c =
        some { c with msgQueue := [], printed := c.printed ++ q.map (renderLine c) } := by
  induction q with
  | nil =>
    intro c hq _
    simp only [Console.flushAux, List.map_nil, List.append_nil]
    rw [← hq]
  | cons m rest ih =>
    intro c hq hv
    have hm : isValidLevel m.Level = true := hv m (List.mem_cons_self m rest)
    have hw := Console.write_eq_of_valid { c with msgQueue := rest } m hm
    simp only [Console.flushAux, hw]
    rw [ih _ rfl (fun x hx => hv x (List.mem_cons_of_mem m hx))]
    simp [renderLine, List.append_assoc]

/-- C3: `Flush` renders, in order, exactly the messages queued in the
inbound channel at the time of the call and returns with the channel
empty; the number of lines produced equals the queue length at call time,
and `Flush` (a total function of the current queue) never waits for future
arrivals. -/
theorem flush_drains_current_queue (c : Console)
    (h : ∀ m ∈ c.msgQueue, isValidLevel m.Level = true) :
    c.Flush = some { c with
                     msgQueue := [],
                     printed := c.printed ++ c.msgQueue.map (renderLine c) } ∧
    (c.printed ++ c.msgQueue.map (renderLine c)).length =
      c.printed.length + c.msgQueue.length := by
  refine ⟨Console.flushAux_spec c.msgQueue c rfl h, ?_⟩
  simp

/-- A console with two valid messages queued in its inbound channel. -/
def queuedConsole : Console :=
  { ts := "ts ", printed := [], writerErr := none, level := 0, msgCap := 5,
    msgQueue := [⟨0, "a"⟩, ⟨3, "b"⟩], errorChanSet := true, errorChanSent := [] }

/-- Closed instance for C3: flushing a two-message queue renders both and
empties the channel. -/
theorem flush_drains_current_queue_witness :
    queuedConsole.Flush =
      some { queuedConsole with
             msgQueue := [],
             printed := queuedConsole.printed ++
               queuedConsole.msgQueue.map (renderLine queuedConsole) } :=
  (flush_drains_current_queue queuedConsole (by decide)).1

theorem Console.startLoop_spec (ms : List Message) :
    ∀ (c : Console) (rest : List LoopInput),
      (∀ m ∈ ms, isValidLevel m.Level = true) →
      c.startLoop (ms.map LoopInput.msg ++ .quit :: rest) =
        .returned { c with printed := c.printed ++ ms.map (renderLine c) } rest := by
  induction ms with
  | nil =>
    intro c rest _
    simp only [List.map_nil, List.nil_append, Console.startLoop, List.append_nil]
  | cons m mrest ih =>
    intro c rest hv
    have hm : isValidLevel m.Level = true := hv m (List.mem_cons_self m mrest)
    have hw := Console.write_eq_of_valid c m hm
    simp only [List.map_cons, List.cons_append, Console.startLoop, hw, List.append_eq]
    rw [ih _ rest (fun x hx => hv x (List.mem_cons_of_mem m hx))]
    simp [renderLine, List.append_assoc]

/-- C4: the consume loop of `Start` renders the messages delivered on the
inbound channel strictly in arrival order, and as soon as the quit signal
is taken it returns, leaving every later input unread. -/
theorem start_fifo_until_quit (c : Console) (ms : List Message)
    (rest : List LoopInput) (h : ∀ m ∈ ms, isValidLevel m.Level = true) :
    c.startLoop (ms.map LoopInput.msg ++ .quit :: rest) =
      .returned { c with printed := c.printed ++ ms.map (renderLine c) } rest :=
  Console.startLoop_spec ms c rest h

/-- Closed instance for C4: two messages then quit — both rendered in
order, the input after the quit signal left unread. -/
theorem start_fifo_until_quit_witness :
    (newConsole "ts ").startLoop
        [.msg ⟨0, "m1"⟩, .msg ⟨1, "m2"⟩, .quit, .msg ⟨2, "m3"⟩] =
      .returned
        { newConsole "ts " with
          printed := (newConsole "ts ").printed ++ List.map (renderLine (newConsole "ts ")) [⟨0, "m1"⟩, ⟨1, "m2"⟩] }
        [.msg ⟨2, "m3"⟩] :=
  start_fifo_until_quit (newConsole "ts ") [⟨0, "m1"⟩, ⟨1, "m2"⟩]
    [.msg ⟨2, "m3"⟩] (by decide)

/-! ## The dispatcher: receiver replacement and the registry -/

theorem replaceReceiver_none_notMem (mode : MODE) (l : FreshLogger) :
    ∀ rs : List Receiver, replaceReceiver mode l rs = none →
      ∀ r ∈ rs, r.mode ≠ mode := by
  intro rs
  induction rs with
  | nil =>
    intro _ r hr
    exact absurd hr (List.not_mem_nil r)
  | cons r0 rs ih =>
    intro hnone r hr
    by_cases h : r0.mode = mode
    · simp only [replaceReceiver, if_pos h] at hnone
      exact Option.noConfusion hnone
    · simp only [replaceReceiver, if_neg h] at hnone
      cases hrec : replaceReceiver mode l rs with
      | none =>
        rcases List.mem_cons.1 hr with rfl | hmem
        · exact h
        · exact ih hrec r hmem
      | some p =>
        obtain ⟨rs2, evs⟩ := p
        rw [hrec] at hnone
        exact Option.noConfusion hnone

theorem replaceReceiver_map_mode (mode : MODE) (l : FreshLogger) :
    ∀ (rs rs2 : List Receiver) (evs : List Event),
      replaceReceiver mode l rs = some (rs2, evs) →
      rs2.map Receiver.mode = rs.map Receiver.mode := by
  intro rs
  induction rs with
  | nil =>
    intro rs2 evs h
    exact Option.noConfusion h
  | cons r0 rs ih =>
    intro rs2 evs h
    by_cases hm : r0.mode = mode
    · simp only [replaceReceiver, if_pos hm] at h
      injection h with h1
      injection h1 with ha hb
      subst ha
      simp [List.map_cons]
    · simp only [replaceReceiver, if_neg hm] at h
      cases hrec : replaceReceiver mode l rs with
      | none =>
        rw [hrec] at h
        exact Option.noConfusion h
      | some p =>
        obtain ⟨rs2', evs'⟩ := p
        rw [hrec] at h
        injection h with h1
        injection h1 with ha hb
        subst ha
        simp [List.map_cons, ih rs2' evs' hrec]

theorem replaceReceiver_found (mode : MODE) (l : FreshLogger) :
    ∀ (pre : List Receiver) (old : Receiver) (post : List Receiver),
      old.mode = mode → (∀ r ∈ pre, r.mode ≠ mode) →
      replaceReceiver mode l (pre ++ old :: post) =
        some (pre ++ { logger := l.lid, mode := old.mode, msgChan := l.msgChan, quitChan := l.quitChan } :: post,
              [.quitSignaled old.quitChan, .flushCalled old.logger, .destroyCalled old.logger, .updated l.lid]) := by
  intro pre
  induction pre with
  | nil =>
    intro old post hm _
    simp only [List.nil_append, replaceReceiver, if_pos hm]
    rfl
  | cons r0 pre ih =>
    intro old post hm hpre
    have h0 : r0.mode ≠ mode := hpre r0 (List.mem_cons_self r0 pre)
    simp only [List.cons_append, replaceReceiver, if_neg h0, List.append_eq]
    rw [ih old post hm (fun r hr => hpre r (List.mem_cons_of_mem r0 hr))]

theorem NewLogger_modes_nodup (fr : Option FreshLogger) (rs : List Receiver)
    (mode : MODE) (h : (rs.map Receiver.mode).Nodup) :
    (((NewLogger fr rs mode).1).map Receiver.mode).Nodup := by
  cases fr with
  | none => exact h
  | some logger =>
    cases hie : logger.initErr with
    | some e =>
      simp only [NewLogger, hie]
      exact h
    | none =>
      cases hrec : replaceReceiver mode logger rs with
      | none =>
        simp only [NewLogger, hie, hrec]
        rw [List.map_append, List.nodup_append]
        refine ⟨h, List.nodup_singleton _, ?_⟩
        intro a ha hb
        rw [List.map_cons, List.map_nil, List.mem_singleton] at hb
        subst hb
        obtain ⟨r, hr, hrm⟩ := List.mem_map.1 ha
        exact replaceReceiver_none_notMem _ logger rs hrec r hr hrm
      | some p =>
        obtain ⟨rs2, evs⟩ := p
        simp only [NewLogger, hie, hrec]
        rw [replaceReceiver_map_mode mode logger rs rs2 evs hrec]
        exact h

theorem runNewLoggers_aux (calls : List (Option FreshLogger × MODE)) :
    ∀ rs : List Receiver, (rs.map Receiver.mode).Nodup →
      ((calls.foldl (fun rs c => (NewLogger c.1 rs c.2).1) rs).map Receiver.mode).Nodup := by
  induction calls with
  | nil =>
    intro rs h
    exact h
  | cons c calls ih =>
    intro rs h
    exact ih _ (NewLogger_modes_nodup c.1 rs c.2 h)

/-- C1: after any sequence of `NewLogger` calls from the initial state the
receivers list has at most one receiver per mode (its modes are pairwise
distinct); and a successful call for a mode with an existing receiver
retires the old adapter in the strict order quit-signal, `Flush`,
`Destroy`, then overwrites that receiver's adapter and channels in place
(same position, no entry appended) and only then starts the new consume
loop. -/
theorem newLogger_replace_unique_and_retire_order :
    (∀ calls, ((runNewLoggers calls).map Receiver.mode).Nodup) ∧
    (∀ (fr : FreshLogger) (pre post : List Receiver) (old : Receiver) (mode : MODE),
      fr.initErr = none → old.mode = mode → (∀ r ∈ pre, r.mode ≠ mode) →
      NewLogger (some fr) (pre ++ old :: post) mode =
        (pre ++ { logger := fr.lid, mode := old.mode, msgChan := fr.msgChan, quitChan := fr.quitChan } :: post,
         [.initCalled fr.lid, .quitSignaled old.quitChan, .flushCalled old.logger,
          .destroyCalled old.logger, .updated fr.lid, .startCalled fr.lid],
         none)) := by
  constructor
  · intro calls
    exact runNewLoggers_aux calls [] (by simp)
  · intro fr pre post old mode hie hm hpre
    have hrep := replaceReceiver_found mode fr pre old post hm hpre
    simp only [NewLogger, hie, hrep]
    rfl

/-- Closed instance for C1: replacing the sole console receiver signals
quit, flushes and destroys the old adapter, then updates in place and
starts the new loop; the list still has exactly one entry. -/
theorem newLogger_replace_unique_and_retire_order_witness :
    NewLogger (some ⟨1, none, 10, 11⟩) [⟨0, "console", 2, 3⟩] "console" =
      ([⟨1, "console", 10, 11⟩],
       [.initCalled 1, .quitSignaled 3, .flushCalled 0, .destroyCalled 0,
        .updated 1, .startCalled 1],
       none) :=
  newLogger_replace_unique_and_retire_order.2 ⟨1, none, 10, 11⟩ [] []
    ⟨0, "console", 2, 3⟩ "console" rfl rfl (by simp)

/-- C2: when the mode has no registered factory, or the fresh adapter's
`Init` fails, `NewLogger` returns a non-nil error (the `Init` error wrapped
with context) and performs no lifecycle action: the receivers list is
returned unchanged and no quit-signal, flush, destroy, in-place update,
append or loop start occurs (at most the failing `Init` call itself). -/
theorem newLogger_failure_preserves_state (rs : List Receiver) (mode : MODE)
    (fr : FreshLogger) (e : String) (h : fr.initErr = some e) :
    NewLogger none rs mode = (rs, [], some ("unknown mode " ++ mode)) ∧
    NewLogger (some fr) rs mode =
      (rs, [.initCalled fr.lid], some ("fail to initialize: " ++ e)) := by
  refine ⟨rfl, ?_⟩
  simp only [NewLogger, h]

/-- Closed instance for C2: a failing `Init` leaves the single active
receiver untouched and starts nothing. -/
theorem newLogger_failure_preserves_state_witness :
    NewLogger (some ⟨5, some "bad config", 6, 7⟩) [⟨0, "console", 2, 3⟩] "console" =
      ([⟨0, "console", 2, 3⟩], [.initCalled 5],
       some ("fail to initialize: " ++ "bad config")) :=
  (newLogger_failure_preserves_state [⟨0, "console", 2, 3⟩] "console"
    ⟨5, some "bad config", 6, 7⟩ "bad config" rfl).2

/-- C7: `Register` panics exactly when the factory is nil or the mode is
already registered; on success it stores the factory under the mode and
every previously stored factory is still present with its old value (this
and `NewLogger`, which only reads `factories`, are the only operations on
the registry, so a stored factory is never overwritten or removed). -/
theorem register_panics_iff_nil_or_dup (fs : List (MODE × Factory)) (mode : MODE)
    (f : Option Factory) :
    (Register fs mode f = none ↔ f = none ∨ (fs.lookup mode).isSome = true) ∧
    (∀ fn fs2, f = some fn → Register fs mode f = some fs2 →
      fs2.lookup mode = some fn ∧
      ∀ (m : MODE) (g : Factory), fs.lookup m = some g → fs2.lookup m = some g) := by
  constructor
  · cases f with
    | none => simp [Register]
    | some fn =>
      simp only [Register]
      by_cases h : (fs.lookup mode).isSome = true
      · simp [h]
      · simp [h]
  · intro fn fs2 hf hreg
    subst hf
    simp only [Register] at hreg
    by_cases h : (fs.lookup mode).isSome = true
    · rw [if_pos h] at hreg
      exact Option.noConfusion hreg
    · rw [if_neg h] at hreg
      injection hreg with h2
      subst h2
      constructor
      · simp [List.lookup]
      · intro m g hm
        have hmm : m ≠ mode := by
          intro heq
          subst heq
          rw [hm] at h
          exact h rfl
        have hb : (m == mode) = false := beq_eq_false_iff_ne.2 hmm
        simp [List.lookup, hb, hm]

/-- Closed instance for C7: a successful registration stores the factory
under its mode. -/
theorem register_panics_iff_nil_or_dup_witness :
    ([(CONSOLE, 7)] : List (MODE × Factory)).lookup CONSOLE = some 7 :=
  ((register_panics_iff_nil_or_dup [] CONSOLE (some 7)).2 7 [(CONSOLE, 7)] rfl rfl).1

end Clog
